import Mathlib

/-!
Shallow embedding of `src/gui/src-tauri/src/lib.rs` (KIWI desktop TTS GUI backend).

The five Tauri command handlers are modelled as pure functions from their
arguments and an explicit environment (the outcomes the outside world would
deliver: HTTP responses, JSON parse results, process-spawn results, the
filesystem) to their return value together with a trace of the observable
effects they perform (network calls, process spawns, file writes).
-/

set_option autoImplicit false
set_option linter.unusedVariables false

namespace KIWI

/-- Rust struct `Voice` (lib.rs lines 4-10). -/
structure Voice where
  name : String
  language_code : String
  ssml_gender : String
  display_name : Option String
  deriving Repr, DecidableEq

/-- Rust struct `VoicesResponse` (lib.rs lines 12-16). -/
structure VoicesResponse where
  voices : List Voice
  language_code : String
  deriving Repr, DecidableEq

/-- Rust struct `TTSRequest` (lib.rs lines 18-24). -/
structure TTSRequest where
  text : String
  voice : String
  format : String
  language : String
  deriving Repr, DecidableEq

/-- Rust struct `ConversionResult` (lib.rs lines 26-34). -/
structure ConversionResult where
  success : Bool
  output_path : Option String
  error : Option String
  file_size : Option String
  processing_time : Option String
  download_url : Option String
  deriving Repr, DecidableEq

/-- `const API_BASE_URL` (lib.rs line 36). -/
def API_BASE_URL : String := "http://127.0.0.1:8000"

/-- Raw bytes of a downloaded file, modelled as a list of byte values. -/
abbrev Bytes := List Nat

/-- An observable effect performed by a handler: an HTTP POST or GET, a
filesystem write, or a process-spawn attempt (`created` tells whether the
OS actually created the process, i.e. `Command::output()` returned `Ok`). -/
inductive Event where
  | post (url : String) (body : TTSRequest)
  | get (url : String)
  | fsWrite (path : String) (data : Bytes)
  | spawn (cmd : String) (args : List String) (created : Bool)
  deriving Repr, DecidableEq

/-- Outcome the environment delivers for the GET in `get_available_voices`:
the connection fails, the server answers with a non-success status, or it
answers with a success status and a body whose parse as `VoicesResponse`
succeeds or fails. -/
inductive VoicesOutcome where
  | connErr (e : String)
  | badStatus
  | okStatus (parse : Except String VoicesResponse)
  deriving Repr

/-- The literal `chirp_voices` fallback name table (lib.rs lines 52-55 and 77-80). -/
def chirp_voices : List String :=
  ["Charon", "Kore", "Zephyr", "Achernar", "Pulcherrima", "Leda",
   "Aoede", "Callirrhoe", "Despina", "Enceladus", "Puck", "Umbriel"]

/-- The name table tagged FEMALE in the fallback construction (lib.rs line 58). -/
def femaleNames : List String :=
  ["Charon", "Kore", "Leda", "Aoede", "Callirrhoe", "Pulcherrima", "Despina"]

/-- One fallback `Voice` as built in the closure of lib.rs lines 57-70. -/
def fallbackVoice (language_code voice_name : String) : Voice :=
  { name := language_code ++ "-Chirp3-HD-" ++ voice_name
    language_code := language_code
    ssml_gender := if femaleNames.contains voice_name then "FEMALE" else "MALE"
    display_name := some (voice_name ++ " (HD)") }

/-- The full fallback voice list (lib.rs lines 57-70, duplicated at 82-95). -/
def fallbackVoices (language_code : String) : List Voice :=
  chirp_voices.map (fallbackVoice language_code)

/-- Handler `get_available_voices` (lib.rs lines 38-101): GET
`{API_BASE_URL}/voices/{language_code}`; on success status parse the body as
`VoicesResponse` and return its voices (`Err` on a parse failure); on a
non-success status or a connection error return the fallback list. -/
def get_available_voices (language_code : String) (api : VoicesOutcome) :
    Except String (List Voice) × List Event :=
  let url := API_BASE_URL ++ "/voices/" ++ language_code
  match api with
  | .connErr _ => (.ok (fallbackVoices language_code), [.get url])
  | .badStatus => (.ok (fallbackVoices language_code), [.get url])
  | .okStatus (.ok voices_response) => (.ok voices_response.voices, [.get url])
  | .okStatus (.error e) =>
      (.error ("Failed to parse voices response: " ++ e), [.get url])

/-- `true` exactly when the remote API is unreachable, i.e. the send of the
request itself failed with a connection error. A non-success HTTP status means
the server was reached but answered with an error. -/
def VoicesOutcome.isUnreachable : VoicesOutcome → Bool
  | .connErr _ => true
  | _ => false

/-- Outcome the environment delivers for the POST to `/synthesize`
(lib.rs line 125): connection error, non-success status (whose body text
read may itself fail, lib.rs line 181), or success status with a body whose
parse as `ConversionResult` succeeds or fails (lib.rs line 128). -/
inductive SynthOutcome where
  | connErr (e : String)
  | badStatus (status : String) (text : Except String String)
  | okStatus (parse : Except String ConversionResult)
  deriving Repr

/-- Outcome the environment delivers for the download GET (lib.rs line 135):
connection error, non-success status, or success status with a byte stream
whose read may succeed or fail (lib.rs line 138). -/
inductive DownloadOutcome where
  | connErr (e : String)
  | badStatus (status : String)
  | okStatus (bytes : Except String Bytes)
  deriving Repr

/-- The environment of one `convert_text_to_speech` call: the outcome of the
POST, the outcome of the download GET (consulted only if the GET is made),
and the outcome of `std::fs::write` (consulted only if a write is made). -/
structure ConvertEnv where
  synth : SynthOutcome
  download : DownloadOutcome
  fsWrite : Except String Unit

/-- Handler `convert_text_to_speech` (lib.rs lines 103-210): POST a
`TTSRequest` (language hardcoded to `"en-US"`) to `{API_BASE_URL}/synthesize`;
on success status parse the body as `ConversionResult` (`Err` on parse
failure); if the parsed result has `success` set and a `download_url`, GET
`{API_BASE_URL}{download_url}`, read the bytes and write them to
`output_path`, recording that path in the result; every failure after a
parsed response flips `success` to `false` and stores a message in `error`. -/
def convert_text_to_speech (text voice format output_path : String)
    (verbose : Bool) (env : ConvertEnv) :
    Except String ConversionResult × List Event :=
  let url := API_BASE_URL ++ "/synthesize"
  let request_body : TTSRequest :=
    { text := text, voice := voice, format := format, language := "en-US" }
  let postEv : Event := .post url request_body
  match env.synth with
  | .connErr e =>
      (.ok { success := false, output_path := none,
             error := some ("Failed to connect to API server: " ++ e ++
               ". Make sure the server is running with \x27uv run kiwi server\x27"),
             file_size := none, processing_time := none, download_url := none },
       [postEv])
  | .badStatus status text_result =>
      match text_result with
      | .ok error_text =>
          (.ok { success := false, output_path := none,
                 error := some ("API error: " ++ error_text),
                 file_size := none, processing_time := none, download_url := none },
           [postEv])
      | .error _ =>
          (.ok { success := false, output_path := none,
                 error := some ("API returned status: " ++ status),
                 file_size := none, processing_time := none, download_url := none },
           [postEv])
  | .okStatus (.error e) =>
      (.error ("Failed to parse TTS response: " ++ e), [postEv])
  | .okStatus (.ok result) =>
      if result.success && result.download_url.isSome then
        let download_url := result.download_url.getD ""
        let full_download_url := API_BASE_URL ++ download_url
        let getEv : Event := .get full_download_url
        match env.download with
        | .connErr e =>
            (.ok { result with success := false,
                               error := some ("Failed to download audio file: " ++ e) },
             [postEv, getEv])
        | .badStatus status =>
            (.ok { result with success := false,
                               error := some ("Download failed with status: " ++ status) },
             [postEv, getEv])
        | .okStatus (.error e) =>
            (.ok { result with success := false,
                               error := some ("Failed to read audio data: " ++ e) },
             [postEv, getEv])
        | .okStatus (.ok bytes) =>
            let writeEv : Event := .fsWrite output_path bytes
            match env.fsWrite with
            | .ok _ =>
                (.ok { result with output_path := some output_path },
                 [postEv, getEv, writeEv])
            | .error e =>
                (.ok { result with success := false,
                                   error := some ("Failed to save audio file: " ++ e) },
                 [postEv, getEv, writeEv])
      else
        (.ok result, [postEv])

/-- The three compile targets selected by the `#[cfg(target_os = ...)]`
blocks of lib.rs. -/
inductive Platform where
  | windows
  | macos
  | linux
  deriving Repr, DecidableEq

/-- What `std::process::Command::output()` yields when the process was
created: its exit status (as the boolean `status.success()`) and its
standard output decoded as text. -/
structure ProcOutput where
  status_success : Bool
  stdout : String
  deriving Repr, DecidableEq

/-- The environment's answer to a spawn attempt of a command with arguments:
`Err` when the OS could not create the process at all (the `map_err` branch),
`Ok` with the process output otherwise. -/
abbrev SpawnEnv := String → List String → Except String ProcOutput

/-- Handler `open_file_path` (lib.rs lines 212-239): spawn the
platform-specific opener on the path; `Err` only when the spawn itself
fails; the process output and exit status are discarded. -/
def open_file_path (platform : Platform) (spawn : SpawnEnv) (path : String) :
    Except String Unit × List Event :=
  match platform with
  | .windows =>
      match spawn "cmd" ["/C", "start", "", path] with
      | .ok _ => (.ok (), [.spawn "cmd" ["/C", "start", "", path] true])
      | .error e => (.error ("Failed to open file: " ++ e),
                     [.spawn "cmd" ["/C", "start", "", path] false])
  | .macos =>
      match spawn "open" [path] with
      | .ok _ => (.ok (), [.spawn "open" [path] true])
      | .error e => (.error ("Failed to open file: " ++ e),
                     [.spawn "open" [path] false])
  | .linux =>
      match spawn "xdg-open" [path] with
      | .ok _ => (.ok (), [.spawn "xdg-open" [path] true])
      | .error e => (.error ("Failed to open file: " ++ e),
                     [.spawn "xdg-open" [path] false])

/-- What the filesystem reports about the path handed to `open_folder_path`:
`Path::exists`, `Path::is_file`, and `Path::parent` rendered as a string. -/
structure FsInfo where
  pathExists : Bool
  isFile : Bool
  parent : Option String
  deriving Repr, DecidableEq

/-- The Linux file-manager loop of `open_folder_path` (lib.rs lines 296-314):
try each file manager with `--select` on the path; the first spawn that the
OS accepts ends the loop with success, a spawn error moves to the next
command. Returns the `success` flag and the spawn attempts made. -/
def tryFileManagers (spawn : SpawnEnv) (path : String) :
    List String → Bool × List Event
  | [] => (false, [])
  | cmd :: rest =>
      match spawn cmd ["--select", path] with
      | .ok _ => (true, [.spawn cmd ["--select", path] true])
      | .error _ =>
          let r := tryFileManagers spawn path rest
          (r.1, .spawn cmd ["--select", path] false :: r.2)

/-- Handler `open_folder_path` (lib.rs lines 241-326): refuse a path that
does not exist; for a file take its parent as the folder (refusing when
there is none); then reveal the file or open the folder with the
platform-specific command; on Linux try four file managers with `--select`
first and fall back to `xdg-open` on the folder. -/
def open_folder_path (platform : Platform) (spawn : SpawnEnv) (fs : FsInfo)
    (path : String) : Except String Unit × List Event :=
  if fs.pathExists = false then
    (.error ("File does not exist: " ++ path), [])
  else
    let folder_path_result : Except String String :=
      if fs.isFile then
        match fs.parent with
        | some p => .ok p
        | none => .error "Cannot determine parent directory"
      else .ok path
    match folder_path_result with
    | .error e => (.error e, [])
    | .ok folder_path =>
        match platform with
        | .windows =>
            if fs.isFile then
              match spawn "explorer" ["/select,", path] with
              | .ok _ => (.ok (), [.spawn "explorer" ["/select,", path] true])
              | .error e => (.error ("Failed to open folder: " ++ e),
                             [.spawn "explorer" ["/select,", path] false])
            else
              match spawn "explorer" [folder_path] with
              | .ok _ => (.ok (), [.spawn "explorer" [folder_path] true])
              | .error e => (.error ("Failed to open folder: " ++ e),
                             [.spawn "explorer" [folder_path] false])
        | .macos =>
            if fs.isFile then
              match spawn "open" ["-R", path] with
              | .ok _ => (.ok (), [.spawn "open" ["-R", path] true])
              | .error e => (.error ("Failed to open folder: " ++ e),
                             [.spawn "open" ["-R", path] false])
            else
              match spawn "open" [folder_path] with
              | .ok _ => (.ok (), [.spawn "open" [folder_path] true])
              | .error e => (.error ("Failed to open folder: " ++ e),
                             [.spawn "open" [folder_path] false])
        | .linux =>
            let attempt :=
              if fs.isFile then
                tryFileManagers spawn path ["nautilus", "dolphin", "thunar", "pcmanfm"]
              else (false, [])
            if attempt.1 then (.ok (), attempt.2)
            else
              match spawn "xdg-open" [folder_path] with
              | .ok _ => (.ok (), attempt.2 ++ [.spawn "xdg-open" [folder_path] true])
              | .error e => (.error ("Failed to open folder: " ++ e),
                             attempt.2 ++ [.spawn "xdg-open" [folder_path] false])

/-- The PowerShell folder-picker script passed on Windows (lib.rs line 338). -/
def powershellScript : String :=
  "Add-Type -AssemblyName System.Windows.Forms; $f = New-Object System.Windows.Forms.FolderBrowserDialog; $f.Description = \x27Select output folder for audio files\x27; $f.SelectedPath = [Environment]::GetFolderPath(\x27MyDocuments\x27); if ($f.ShowDialog() -eq \x27OK\x27) \x7b $f.SelectedPath \x7d else \x7b \x27\x27 \x7d"

/-- The AppleScript folder-picker expression passed on macOS (lib.rs line 357). -/
def applescriptExpr : String :=
  "set chosenFolder to choose folder with prompt \"Select output folder for audio files:\" default location (path to documents folder)"

/-- The Linux dialog commands tried in order (lib.rs lines 375-379). -/
def linuxDialogCommands : List (String × List String) :=
  [("zenity", ["--file-selection", "--directory",
               "--title=Select output folder for audio files"]),
   ("kdialog", ["--getexistingdirectory", ".", "--title",
                "Select output folder for audio files"]),
   ("yad", ["--file-selection", "--directory",
            "--title=Select output folder for audio files"])]

/-- The Linux dialog loop of `select_output_folder` (lib.rs lines 381-391):
run each dialog command; the loop returns the trimmed stdout of the first
run whose process was created, exited successfully and printed a non-empty
path; every other outcome moves on to the next command. -/
def tryFolderDialogs (spawn : SpawnEnv) :
    List (String × List String) → Option String × List Event
  | [] => (none, [])
  | (cmd, args) :: rest =>
      match spawn cmd args with
      | .ok output =>
          if output.status_success then
            let path := output.stdout.trim
            if path ≠ "" then (some path, [.spawn cmd args true])
            else
              let r := tryFolderDialogs spawn rest
              (r.1, .spawn cmd args true :: r.2)
          else
            let r := tryFolderDialogs spawn rest
            (r.1, .spawn cmd args true :: r.2)
      | .error _ =>
          let r := tryFolderDialogs spawn rest
          (r.1, .spawn cmd args false :: r.2)

/-- Handler `select_output_folder` (lib.rs lines 328-400): open the
platform-specific folder-picker dialog. Windows reads the PowerShell
script's trimmed stdout (empty means cancelled); macOS converts the
AppleScript result to a Unix path when the process exits successfully;
Linux tries three dialog programs and falls back to `$HOME/Downloads`
(or `/tmp` without a `HOME` variable). `home` is the environment's answer
to `std::env::var("HOME")`. -/
def select_output_folder (platform : Platform) (spawn : SpawnEnv)
    (home : Option String) : Except String (Option String) × List Event :=
  match platform with
  | .windows =>
      match spawn "powershell" ["-Command", powershellScript] with
      | .error e =>
          (.error ("Failed to open folder dialog: " ++ e),
           [.spawn "powershell" ["-Command", powershellScript] false])
      | .ok output =>
          let path := output.stdout.trim
          (if path = "" then .ok none else .ok (some path),
           [.spawn "powershell" ["-Command", powershellScript] true])
  | .macos =>
      match spawn "osascript" ["-e", applescriptExpr] with
      | .error e =>
          (.error ("Failed to open folder dialog: " ++ e),
           [.spawn "osascript" ["-e", applescriptExpr] false])
      | .ok output =>
          if output.status_success then
            let path := output.stdout.trim
            let unix_path := (path.replace ":" "/").replace "Macintosh HD" ""
            (.ok (some unix_path), [.spawn "osascript" ["-e", applescriptExpr] true])
          else
            (.ok none, [.spawn "osascript" ["-e", applescriptExpr] true])
  | .linux =>
      match tryFolderDialogs spawn linuxDialogCommands with
      | (some path, evs) => (.ok (some path), evs)
      | (none, evs) =>
          match home with
          | some h => (.ok (some (h ++ "/Downloads")), evs)
          | none => (.ok (some "/tmp"), evs)

/-- One invocation of one of the five registered command handlers
(lib.rs lines 406-412), bundling its arguments with the environment
answers it will receive. -/
inductive Invocation where
  | voices (language_code : String) (api : VoicesOutcome)
  | convert (text voice format output_path : String) (verbose : Bool)
      (env : ConvertEnv)
  | openFile (platform : Platform) (spawn : SpawnEnv) (path : String)
  | openFolder (platform : Platform) (spawn : SpawnEnv) (fs : FsInfo)
      (path : String)
  | selectFolder (platform : Platform) (spawn : SpawnEnv) (home : Option String)

/-- The value a handler hands back to the webview, together with its
effect trace. -/
inductive Output where
  | voices (r : Except String (List Voice)) (tr : List Event)
  | convert (r : Except String ConversionResult) (tr : List Event)
  | unitResult (r : Except String Unit) (tr : List Event)
  | folderChoice (r : Except String (Option String)) (tr : List Event)

/-- The effect trace of an output. -/
def Output.trace : Output → List Event
  | .voices _ tr => tr
  | .convert _ tr => tr
  | .unitResult _ tr => tr
  | .folderChoice _ tr => tr

/-- Dispatch one invocation to its handler, as the generated Tauri
`invoke_handler` does (lib.rs lines 406-412). -/
def exec : Invocation → Output
  | .voices lc api =>
      let r := get_available_voices lc api
      .voices r.1 r.2
  | .convert t v f o vb env =>
      let r := convert_text_to_speech t v f o vb env
      .convert r.1 r.2
  | .openFile p spawn path =>
      let r := open_file_path p spawn path
      .unitResult r.1 r.2
  | .openFolder p spawn fs path =>
      let r := open_folder_path p spawn fs path
      .unitResult r.1 r.2
  | .selectFolder p spawn home =>
      let r := select_output_folder p spawn home
      .folderChoice r.1 r.2

/-- Running a sequence of handler invocations, one after the other. -/
def runAll (calls : List Invocation) : List Output :=
  calls.map exec

/-- Network calls (POST or GET attempts, including ones whose connection
failed) in a trace. -/
def Event.isNet : Event → Bool
  | .post _ _ => true
  | .get _ => true
  | _ => false

/-- Process-spawn attempts in a trace, whether or not the OS created the
process. -/
def Event.isSpawnAttempt : Event → Bool
  | .spawn _ _ _ => true
  | _ => false

/-- Spawn attempts for which the OS actually created a process. -/
def Event.isSpawnCreated : Event → Bool
  | .spawn _ _ created => created
  | _ => false

/-- Number of network calls in a trace. -/
def netCount (tr : List Event) : Nat := tr.countP Event.isNet

/-- Number of spawn attempts in a trace. -/
def spawnAttempts (tr : List Event) : Nat := tr.countP Event.isSpawnAttempt

/-- Number of processes actually created in a trace. -/
def spawnCreated (tr : List Event) : Nat := tr.countP Event.isSpawnCreated

/-! ### Concrete environments used to instantiate the theorems -/

/-- A spawn environment in which every process is created and yields the
given output. -/
def spawnAllOk (out : ProcOutput) : SpawnEnv := fun _ _ => .ok out

/-- A spawn environment in which no process can be created. -/
def spawnAllErr (e : String) : SpawnEnv := fun _ _ => .error e

/-- A spawn environment in which every process is created but exits with a
failure status and empty output — e.g. every dialog is cancelled. -/
def dialogCancelEnv : SpawnEnv := fun _ _ => .ok ⟨false, ""⟩

/-- A parsed `/synthesize` response announcing success and a download URL. -/
def happyResult : ConversionResult :=
  { success := true, output_path := none, error := none, file_size := none,
    processing_time := none, download_url := some "/download/x.mp3" }

/-- An environment in which the whole conversion flow succeeds. -/
def happyEnv : ConvertEnv :=
  { synth := .okStatus (.ok happyResult)
    download := .okStatus (.ok [1, 2, 3])
    fsWrite := .ok () }

/-- An environment in which the connection to the API server fails. -/
def connFailEnv : ConvertEnv :=
  { synth := .connErr "connection refused"
    download := .connErr "connection refused"
    fsWrite := .ok () }

/-! ### Helper lemmas on the traces -/

/-- The body `convert_text_to_speech` POSTs, with `language` hardcoded. -/
def synthesizeBody (text voice format : String) : TTSRequest :=
  { text := text, voice := voice, format := format, language := "en-US" }

lemma convert_trace_shape (t v f o : String) (vb : Bool) (env : ConvertEnv) :
    (convert_text_to_speech t v f o vb env).2 =
      [Event.post (API_BASE_URL ++ "/synthesize") (synthesizeBody t v f)] ∨
    (∃ u, (convert_text_to_speech t v f o vb env).2 =
      [Event.post (API_BASE_URL ++ "/synthesize") (synthesizeBody t v f),
       Event.get u]) ∨
    (∃ u b, (convert_text_to_speech t v f o vb env).2 =
      [Event.post (API_BASE_URL ++ "/synthesize") (synthesizeBody t v f),
       Event.get u, Event.fsWrite o b]) := by
  obtain ⟨synth, dl, fw⟩ := env
  cases synth with
  | connErr e => left; rfl
  | badStatus s t0 => cases t0 <;> (left; rfl)
  | okStatus p =>
    cases p with
    | error e => left; rfl
    | ok result =>
      by_cases h : (result.success && result.download_url.isSome) = true
      · cases dl with
        | connErr e =>
            refine Or.inr (Or.inl ⟨API_BASE_URL ++ result.download_url.getD "", ?_⟩)
            simp [convert_text_to_speech, h, synthesizeBody]
        | badStatus s =>
            refine Or.inr (Or.inl ⟨API_BASE_URL ++ result.download_url.getD "", ?_⟩)
            simp [convert_text_to_speech, h, synthesizeBody]
        | okStatus b =>
          cases b with
          | error e =>
              refine Or.inr (Or.inl ⟨API_BASE_URL ++ result.download_url.getD "", ?_⟩)
              simp [convert_text_to_speech, h, synthesizeBody]
          | ok bytes =>
            cases fw with
            | ok u =>
                refine Or.inr (Or.inr
                  ⟨API_BASE_URL ++ result.download_url.getD "", bytes, ?_⟩)
                simp [convert_text_to_speech, h, synthesizeBody]
            | error e =>
                refine Or.inr (Or.inr
                  ⟨API_BASE_URL ++ result.download_url.getD "", bytes, ?_⟩)
                simp [convert_text_to_speech, h, synthesizeBody]
      · left
        simp [convert_text_to_speech, h, synthesizeBody]

lemma tryFileManagers_net (spawn : SpawnEnv) (path : String) :
    ∀ cmds : List String, netCount (tryFileManagers spawn path cmds).2 = 0
  | [] => by simp [tryFileManagers, netCount]
  | cmd :: rest => by
      have ih := tryFileManagers_net spawn path rest
      cases h : spawn cmd ["--select", path] with
      | ok out =>
          simp [tryFileManagers, h, netCount, List.countP_cons, Event.isNet]
      | error e =>
          simp only [netCount] at ih
          simp [tryFileManagers, h, netCount, List.countP_cons, Event.isNet, ih]

lemma tryFileManagers_attempts (spawn : SpawnEnv) (path : String) :
    ∀ cmds : List String,
      spawnAttempts (tryFileManagers spawn path cmds).2 ≤ cmds.length
  | [] => by simp [tryFileManagers, spawnAttempts]
  | cmd :: rest => by
      have ih := tryFileManagers_attempts spawn path rest
      cases h : spawn cmd ["--select", path] with
      | ok out =>
          simp [tryFileManagers, h, spawnAttempts, List.countP_cons,
            Event.isSpawnAttempt]
      | error e =>
          simp only [spawnAttempts] at ih
          simp [tryFileManagers, h, spawnAttempts, List.countP_cons,
            Event.isSpawnAttempt]
          omega

lemma tryFileManagers_created (spawn : SpawnEnv) (path : String) :
    ∀ cmds : List String,
      spawnCreated (tryFileManagers spawn path cmds).2 ≤ 1
  | [] => by simp [tryFileManagers, spawnCreated]
  | cmd :: rest => by
      have ih := tryFileManagers_created spawn path rest
      cases h : spawn cmd ["--select", path] with
      | ok out =>
          simp [tryFileManagers, h, spawnCreated, List.countP_cons,
            Event.isSpawnCreated]
      | error e =>
          simp only [spawnCreated] at ih
          simp [tryFileManagers, h, spawnCreated, List.countP_cons,
            Event.isSpawnCreated]
          omega

lemma tryFileManagers_created_of_failed (spawn : SpawnEnv) (path : String) :
    ∀ cmds : List String, (tryFileManagers spawn path cmds).1 = false →
      spawnCreated (tryFileManagers spawn path cmds).2 = 0
  | [] => by simp [tryFileManagers, spawnCreated]
  | cmd :: rest => by
      have ih := tryFileManagers_created_of_failed spawn path rest
      cases h : spawn cmd ["--select", path] with
      | ok out =>
          simp [tryFileManagers, h]
      | error e =>
          intro hfail
          simp only [spawnCreated] at ih
          simp only [tryFileManagers, h] at hfail ⊢
          simp only [spawnCreated, List.countP_cons, Event.isSpawnCreated,
            if_false, Bool.false_eq_true, Nat.add_zero]
          exact ih hfail

lemma tryFileManagers_success_mem (spawn : SpawnEnv) (path : String) :
    ∀ cmds : List String, (tryFileManagers spawn path cmds).1 = true →
      ∃ c a, Event.spawn c a true ∈ (tryFileManagers spawn path cmds).2
  | [] => by simp [tryFileManagers]
  | cmd :: rest => by
      cases h : spawn cmd ["--select", path] with
      | ok out =>
          intro _
          exact ⟨cmd, ["--select", path], by simp [tryFileManagers, h]⟩
      | error e =>
          intro hs
          have hs2 : (tryFileManagers spawn path rest).1 = true := by
            simpa [tryFileManagers, h] using hs
          obtain ⟨c, a, hm⟩ := tryFileManagers_success_mem spawn path rest hs2
          exact ⟨c, a, by simp [tryFileManagers, h, hm]⟩

lemma tryFileManagers_failed_not_mem (spawn : SpawnEnv) (path : String) :
    ∀ cmds : List String, (tryFileManagers spawn path cmds).1 = false →
      ∀ c a, Event.spawn c a true ∉ (tryFileManagers spawn path cmds).2
  | [] => by simp [tryFileManagers]
  | cmd :: rest => by
      cases h : spawn cmd ["--select", path] with
      | ok out =>
          intro hs
          simp [tryFileManagers, h] at hs
      | error e =>
          intro hs c a hm
          have hs2 : (tryFileManagers spawn path rest).1 = false := by
            simpa [tryFileManagers, h] using hs
          have hm2 : Event.spawn c a true ∈ (tryFileManagers spawn path rest).2 := by
            simpa [tryFileManagers, h] using hm
          exact tryFileManagers_failed_not_mem spawn path rest hs2 c a hm2

lemma tryFolderDialogs_net (spawn : SpawnEnv) :
    ∀ cmds : List (String × List String),
      netCount (tryFolderDialogs spawn cmds).2 = 0
  | [] => by simp [tryFolderDialogs, netCount]
  | (cmd, args) :: rest => by
      have ih := tryFolderDialogs_net spawn rest
      simp only [netCount] at ih
      cases h : spawn cmd args with
      | ok out =>
          by_cases hs : out.status_success = true
          · by_cases hp : out.stdout.trim = ""
            · simp [tryFolderDialogs, h, hs, hp, netCount, List.countP_cons,
                Event.isNet, ih]
            · simp [tryFolderDialogs, h, hs, hp, netCount, List.countP_cons,
                Event.isNet]
          · simp [tryFolderDialogs, h, hs, netCount, List.countP_cons,
              Event.isNet, ih]
      | error e =>
          simp [tryFolderDialogs, h, netCount, List.countP_cons, Event.isNet, ih]

lemma tryFolderDialogs_attempts (spawn : SpawnEnv) :
    ∀ cmds : List (String × List String),
      spawnAttempts (tryFolderDialogs spawn cmds).2 ≤ cmds.length
  | [] => by simp [tryFolderDialogs, spawnAttempts]
  | (cmd, args) :: rest => by
      have ih := tryFolderDialogs_attempts spawn rest
      simp only [spawnAttempts] at ih
      cases h : spawn cmd args with
      | ok out =>
          by_cases hs : out.status_success = true
          · by_cases hp : out.stdout.trim = ""
            · simp [tryFolderDialogs, h, hs, hp, spawnAttempts,
                List.countP_cons, Event.isSpawnAttempt]
              omega
            · simp [tryFolderDialogs, h, hs, hp, spawnAttempts,
                List.countP_cons, Event.isSpawnAttempt]
          · simp [tryFolderDialogs, h, hs, spawnAttempts, List.countP_cons,
              Event.isSpawnAttempt]
            omega
      | error e =>
          simp [tryFolderDialogs, h, spawnAttempts, List.countP_cons,
            Event.isSpawnAttempt]
          omega

lemma tryFolderDialogs_created (spawn : SpawnEnv) :
    ∀ cmds : List (String × List String),
      spawnCreated (tryFolderDialogs spawn cmds).2 ≤ cmds.length
  | [] => by simp [tryFolderDialogs, spawnCreated]
  | (cmd, args) :: rest => by
      have ih := tryFolderDialogs_created spawn rest
      simp only [spawnCreated] at ih
      cases h : spawn cmd args with
      | ok out =>
          by_cases hs : out.status_success = true
          · by_cases hp : out.stdout.trim = ""
            · simp [tryFolderDialogs, h, hs, hp, spawnCreated,
                List.countP_cons, Event.isSpawnCreated]
              omega
            · simp [tryFolderDialogs, h, hs, hp, spawnCreated,
                List.countP_cons, Event.isSpawnCreated]
          · simp [tryFolderDialogs, h, hs, spawnCreated, List.countP_cons,
              Event.isSpawnCreated]
            omega
      | error e =>
          simp [tryFolderDialogs, h, spawnCreated, List.countP_cons,
            Event.isSpawnCreated]
          omega

/-! ### C1 -/

/-- C1 counterexample: the claim says the fallback list is returned
*exactly* when the remote API is unreachable, but when the server is
reached and answers with a non-success HTTP status the handler also
returns the fallback list. -/
theorem C1_counterexample :
    (get_available_voices "en-US" VoicesOutcome.badStatus).1 =
      .ok (fallbackVoices "en-US") ∧
    VoicesOutcome.badStatus.isUnreachable = false :=
  ⟨rfl, rfl⟩

/-- C1 (amended): `get_available_voices` returns the hardcoded fallback list
of 12 voice names (each rendered as `{language_code}-Chirp3-HD-{name}` with a
gender tag and an `{name} (HD)` display name) when the remote API is
unreachable *or* when it answers with a non-success HTTP status; when it
answers with a success status it returns the voices parsed from the
`VoicesResponse` body, or an error if that body fails to parse. -/
theorem C1_fallback_voices (language_code : String) (api : VoicesOutcome) :
    (api.isUnreachable = true ∨ api = VoicesOutcome.badStatus →
      (get_available_voices language_code api).1 =
        .ok (fallbackVoices language_code)) ∧
    (∀ vr, api = VoicesOutcome.okStatus (.ok vr) →
      (get_available_voices language_code api).1 = .ok vr.voices) ∧
    (∀ e, api = VoicesOutcome.okStatus (.error e) →
      (get_available_voices language_code api).1 =
        .error ("Failed to parse voices response: " ++ e)) ∧
    (fallbackVoices language_code).length = 12 ∧
    (∀ v ∈ fallbackVoices language_code, ∃ n, n ∈ chirp_voices ∧
      v.name = language_code ++ "-Chirp3-HD-" ++ n ∧
      v.language_code = language_code ∧
      v.display_name = some (n ++ " (HD)") ∧
      (v.ssml_gender = "FEMALE" ∨ v.ssml_gender = "MALE")) := by
  refine ⟨?_, ?_, ?_, rfl, ?_⟩
  · rintro (h | rfl)
    · cases api with
      | connErr e => rfl
      | badStatus => rfl
      | okStatus p => simp [VoicesOutcome.isUnreachable] at h
    · rfl
  · rintro vr rfl; rfl
  · rintro e rfl; rfl
  · intro v hv
    obtain ⟨n, hn, rfl⟩ := List.mem_map.mp hv
    refine ⟨n, hn, rfl, rfl, rfl, ?_⟩
    cases hb : femaleNames.contains n with
    | true =>
        left
        simp only [fallbackVoice]
        rw [if_pos hb]
    | false =>
        right
        simp only [fallbackVoice]
        rw [if_neg (by simpa using hb)]

/-- C1 witness: at an unreachable API the fallback list is returned. -/
theorem C1_fallback_voices_witness :
    (get_available_voices "en-US" (VoicesOutcome.connErr "refused")).1 =
      .ok (fallbackVoices "en-US") :=
  (C1_fallback_voices "en-US" (VoicesOutcome.connErr "refused")).1 (Or.inl rfl)

/-! ### C7 -/

/-- C7: a `ConversionResult` is a record stating whether the request
succeeded (`success`), together with an optional output path, an optional
error message and an optional file size; a result is determined by its
fields. -/
theorem C7_conversion_result_record :
    (∀ (s : Bool) (op er fs pt du : Option String),
      (ConversionResult.mk s op er fs pt du).success = s ∧
      (ConversionResult.mk s op er fs pt du).output_path = op ∧
      (ConversionResult.mk s op er fs pt du).error = er ∧
      (ConversionResult.mk s op er fs pt du).file_size = fs) ∧
    (∀ r : ConversionResult,
      r = ⟨r.success, r.output_path, r.error, r.file_size,
           r.processing_time, r.download_url⟩) :=
  ⟨fun _ _ _ _ _ _ => ⟨rfl, rfl, rfl, rfl⟩, fun _ => rfl⟩

/-! ### C8 -/

/-- C8: for a path that does not exist, `open_folder_path` returns
`Err ("File does not exist: " ++ path)` on every platform and performs no
spawn at all (its effect trace is empty). -/
theorem C8_open_folder_missing_path (platform : Platform) (spawn : SpawnEnv)
    (fs : FsInfo) (path : String) (h : fs.pathExists = false) :
    open_folder_path platform spawn fs path =
      (.error ("File does not exist: " ++ path), []) := by
  simp [open_folder_path, h]

/-- C8 witness: a concrete missing path is refused with no spawn. -/
theorem C8_open_folder_missing_path_witness :
    open_folder_path Platform.linux (spawnAllErr "no exec")
      ⟨false, false, none⟩ "out.mp3" =
      (.error ("File does not exist: " ++ "out.mp3"), []) :=
  C8_open_folder_missing_path Platform.linux (spawnAllErr "no exec")
    ⟨false, false, none⟩ "out.mp3" rfl

/-! ### C9 -/

/-- C9: every `Voice` is a record of a name, a language code, a gender tag
and an optional display name, and every voice returned by
`get_available_voices` comes either from the parsed remote response or from
the static fallback table. -/
theorem C9_voice_provenance :
    (∀ v : Voice,
      v = ⟨v.name, v.language_code, v.ssml_gender, v.display_name⟩) ∧
    (∀ (language_code : String) (api : VoicesOutcome) (vs : List Voice),
      (get_available_voices language_code api).1 = .ok vs →
      ∀ v ∈ vs,
        (∃ vr, api = VoicesOutcome.okStatus (.ok vr) ∧ v ∈ vr.voices) ∨
        v ∈ fallbackVoices language_code) := by
  refine ⟨fun _ => rfl, ?_⟩
  intro language_code api vs h v hv
  cases api with
  | connErr e =>
      right
      obtain rfl : fallbackVoices language_code = vs := by
        simpa [get_available_voices] using h
      exact hv
  | badStatus =>
      right
      obtain rfl : fallbackVoices language_code = vs := by
        simpa [get_available_voices] using h
      exact hv
  | okStatus p =>
      cases p with
      | ok vr =>
          left
          obtain rfl : vr.voices = vs := by
            simpa [get_available_voices] using h
          exact ⟨vr, rfl, hv⟩
      | error e => simp [get_available_voices] at h

/-- C9 witness: a voice returned at a concrete non-success status comes
from the fallback table. -/
theorem C9_voice_provenance_witness :
    (∃ vr, VoicesOutcome.badStatus = VoicesOutcome.okStatus (.ok vr) ∧
      fallbackVoice "en-US" "Charon" ∈ vr.voices) ∨
    fallbackVoice "en-US" "Charon" ∈ fallbackVoices "en-US" :=
  C9_voice_provenance.2 "en-US" VoicesOutcome.badStatus
    (fallbackVoices "en-US") rfl (fallbackVoice "en-US" "Charon")
    (List.mem_map_of_mem (fallbackVoice "en-US") (by simp [chirp_voices]))

/-! ### C10 -/

/-- C10: the handlers share no mutable state: in any sequence of handler
invocations, each invocation's output is exactly the handler applied to
its own arguments and environment, independent of the invocations run
before or after it. -/
theorem C10_no_shared_state (pre post : List Invocation) (c : Invocation) :
    runAll (pre ++ c :: post) = runAll pre ++ exec c :: runAll post := by
  simp [runAll]

/-! ### C6 -/

/-- C6: whatever the arguments, the body POSTed to `/synthesize` carries
`language = "en-US"`: the first trace event is the POST of
`synthesizeBody`, and every POSTed body in the trace has language
`"en-US"`. -/
theorem C6_language_hardcoded (t v f o : String) (vb : Bool)
    (env : ConvertEnv) :
    ((convert_text_to_speech t v f o vb env).2.head? =
      some (Event.post (API_BASE_URL ++ "/synthesize") (synthesizeBody t v f))) ∧
    (∀ u b, Event.post u b ∈ (convert_text_to_speech t v f o vb env).2 →
      b.language = "en-US") := by
  obtain h | ⟨u0, h⟩ | ⟨u0, b0, h⟩ := convert_trace_shape t v f o vb env <;>
    rw [h] <;> refine ⟨rfl, ?_⟩ <;> intro u b hm <;> simp at hm <;>
    rw [hm.2] <;> rfl

/-- C6 witness: a concrete call POSTs a body whose language is `"en-US"`. -/
theorem C6_language_hardcoded_witness :
    (synthesizeBody "hello" "en-US-Chirp3-HD-Kore" "mp3").language = "en-US" :=
  (C6_language_hardcoded "hello" "en-US-Chirp3-HD-Kore" "mp3" "out.mp3" false
      connFailEnv).2
    (API_BASE_URL ++ "/synthesize")
    (synthesizeBody "hello" "en-US-Chirp3-HD-Kore" "mp3")
    (by simp [convert_text_to_speech, connFailEnv, synthesizeBody])

/-! ### C2 -/

/-- C2: the conversion flow is the sequence POST-then-optional-GET-then-write:
the first event is the POST of the JSON body to `/synthesize`; a GET happens
exactly when the parsed response reports success and carries a download URL,
and its URL is `API_BASE_URL ++ download_url`; a file write happens exactly
when that GET delivered bytes, it writes those bytes to `output_path`; and
when the write succeeds the returned result records `output_path`. -/
theorem C2_conversion_flow (t v f o : String) (vb : Bool) (env : ConvertEnv) :
    ((convert_text_to_speech t v f o vb env).2.head? =
      some (Event.post (API_BASE_URL ++ "/synthesize") (synthesizeBody t v f))) ∧
    ((∃ u, Event.get u ∈ (convert_text_to_speech t v f o vb env).2) ↔
      (∃ cr, env.synth = SynthOutcome.okStatus (.ok cr) ∧
        cr.success = true ∧ cr.download_url.isSome = true)) ∧
    (∀ u, Event.get u ∈ (convert_text_to_speech t v f o vb env).2 →
      ∃ cr du, env.synth = SynthOutcome.okStatus (.ok cr) ∧
        cr.download_url = some du ∧ u = API_BASE_URL ++ du) ∧
    ((∃ p b, Event.fsWrite p b ∈ (convert_text_to_speech t v f o vb env).2) ↔
      ((∃ cr, env.synth = SynthOutcome.okStatus (.ok cr) ∧
          cr.success = true ∧ cr.download_url.isSome = true) ∧
        ∃ b, env.download = DownloadOutcome.okStatus (.ok b))) ∧
    (∀ p b, Event.fsWrite p b ∈ (convert_text_to_speech t v f o vb env).2 →
      p = o ∧ env.download = DownloadOutcome.okStatus (.ok b)) ∧
    (∀ p b, Event.fsWrite p b ∈ (convert_text_to_speech t v f o vb env).2 →
      env.fsWrite = .ok () →
      ∃ cr, (convert_text_to_speech t v f o vb env).1 = .ok cr ∧
        cr.output_path = some o) := by
  obtain ⟨synth, dl, fw⟩ := env
  cases synth with
  | connErr e => simp [convert_text_to_speech, synthesizeBody]
  | badStatus s t0 => cases t0 <;> simp [convert_text_to_speech, synthesizeBody]
  | okStatus p =>
    cases p with
    | error e => simp [convert_text_to_speech, synthesizeBody]
    | ok result =>
      cases hs : result.success with
      | false => simp [convert_text_to_speech, synthesizeBody, hs]
      | true =>
        cases hdu : result.download_url with
        | none => simp [convert_text_to_speech, synthesizeBody, hs, hdu]
        | some du =>
          cases dl with
          | connErr e2 =>
              simp [convert_text_to_speech, synthesizeBody, hs, hdu]
          | badStatus s2 =>
              simp [convert_text_to_speech, synthesizeBody, hs, hdu]
          | okStatus b0 =>
            cases b0 with
            | error e2 =>
                simp [convert_text_to_speech, synthesizeBody, hs, hdu]
            | ok bytes =>
              cases fw with
              | ok u =>
                  simp [convert_text_to_speech, synthesizeBody, hs, hdu]
              | error e2 =>
                  simp [convert_text_to_speech, synthesizeBody, hs, hdu]

/-- C2 witness: in an environment where everything succeeds, the returned
result records the requested output path. -/
theorem C2_conversion_flow_witness :
    ∃ cr, (convert_text_to_speech "hello" "en-US-Chirp3-HD-Kore" "mp3"
        "out.mp3" false happyEnv).1 = .ok cr ∧
      cr.output_path = some "out.mp3" :=
  (C2_conversion_flow "hello" "en-US-Chirp3-HD-Kore" "mp3" "out.mp3" false
      happyEnv).2.2.2.2.2 "out.mp3" [1, 2, 3]
    (by simp [convert_text_to_speech, happyEnv, happyResult])
    rfl

/-! ### C4 -/

/-- C4: `convert_text_to_speech` returns `Err` exactly when the body of a
success-status `/synthesize` response fails to parse; a connection error, a
non-success status, a failed download, a failed byte read and a failed file
write are all returned as `Ok` with `success = false` and an error message. -/
theorem C4_error_paths (t v f o : String) (vb : Bool) (env : ConvertEnv) :
    ((∃ m, (convert_text_to_speech t v f o vb env).1 = .error m) ↔
      (∃ e, env.synth = SynthOutcome.okStatus (.error e))) ∧
    (∀ e, env.synth = SynthOutcome.connErr e →
      ∃ cr, (convert_text_to_speech t v f o vb env).1 = .ok cr ∧
        cr.success = false ∧ cr.error.isSome = true) ∧
    (∀ s tr0, env.synth = SynthOutcome.badStatus s tr0 →
      ∃ cr, (convert_text_to_speech t v f o vb env).1 = .ok cr ∧
        cr.success = false ∧ cr.error.isSome = true) ∧
    (∀ cr0, env.synth = SynthOutcome.okStatus (.ok cr0) →
      cr0.success = true → cr0.download_url.isSome = true →
      (∀ b, env.download ≠ DownloadOutcome.okStatus (.ok b)) →
      ∃ cr, (convert_text_to_speech t v f o vb env).1 = .ok cr ∧
        cr.success = false ∧ cr.error.isSome = true) ∧
    (∀ cr0 b we, env.synth = SynthOutcome.okStatus (.ok cr0) →
      cr0.success = true → cr0.download_url.isSome = true →
      env.download = DownloadOutcome.okStatus (.ok b) →
      env.fsWrite = .error we →
      ∃ cr, (convert_text_to_speech t v f o vb env).1 = .ok cr ∧
        cr.success = false ∧ cr.error.isSome = true) := by
  obtain ⟨synth, dl, fw⟩ := env
  cases synth with
  | connErr e => simp [convert_text_to_speech]
  | badStatus s t0 => cases t0 <;> simp [convert_text_to_speech]
  | okStatus p =>
    cases p with
    | error e => simp [convert_text_to_speech]
    | ok result =>
      cases hs : result.success with
      | false =>
          simp [convert_text_to_speech, hs]
          rintro cr0 b we rfl h1
          exact absurd h1 (by simp [hs])
      | true =>
        cases hdu : result.download_url with
        | none =>
            simp [convert_text_to_speech, hs, hdu]
            rintro cr0 b we rfl h1 h2
            rw [hdu] at h2
            simp at h2
        | some du =>
          cases dl with
          | connErr e2 => simp [convert_text_to_speech, hs, hdu]
          | badStatus s2 => simp [convert_text_to_speech, hs, hdu]
          | okStatus b0 =>
            cases b0 with
            | error e2 => simp [convert_text_to_speech, hs, hdu]
            | ok bytes =>
              cases fw with
              | ok u => simp [convert_text_to_speech, hs, hdu]
              | error e2 => simp [convert_text_to_speech, hs, hdu]

/-- C4 witness: a connection failure comes back as `Ok` with `success`
false and an error message. -/
theorem C4_error_paths_witness :
    ∃ cr, (convert_text_to_speech "hello" "en-US-Chirp3-HD-Kore" "mp3"
        "out.mp3" false connFailEnv).1 = .ok cr ∧
      cr.success = false ∧ cr.error.isSome = true :=
  (C4_error_paths "hello" "en-US-Chirp3-HD-Kore" "mp3" "out.mp3" false
      connFailEnv).2.1 "connection refused" rfl

/-! ### C3 -/

/-- C3 counterexample: on Linux, `select_output_folder` in an environment
where every dialog program starts but is cancelled spawns three OS
processes while making no network call, exceeding the claimed bound of at
most one process spawn. -/
theorem C3_counterexample :
    netCount (exec (Invocation.selectFolder Platform.linux dialogCancelEnv
        none)).trace = 0 ∧
    spawnCreated (exec (Invocation.selectFolder Platform.linux dialogCancelEnv
        none)).trace = 3 ∧
    ¬ spawnCreated (exec (Invocation.selectFolder Platform.linux
        dialogCancelEnv none)).trace ≤ 1 := by
  refine ⟨rfl, rfl, by decide⟩

/-- C3 (amended): every handler invocation makes at most two sequential
network calls; it makes at most five process-spawn attempts, of which at
most three create a process (`select_output_folder` on Linux may create up
to three dialog processes; `open_folder_path` on Linux may make up to five
attempts); every handler other than `select_output_folder` creates at most
one process. -/
theorem C3_call_bounds (i : Invocation) :
    netCount (exec i).trace ≤ 2 ∧
    spawnAttempts (exec i).trace ≤ 5 ∧
    spawnCreated (exec i).trace ≤ 3 ∧
    ((∀ p s h, i ≠ Invocation.selectFolder p s h) →
      spawnCreated (exec i).trace ≤ 1) := by
  cases i with
  | voices lc api =>
      rcases api with e | _ | p | p <;>
        simp [exec, get_available_voices, Output.trace, netCount,
          spawnAttempts, spawnCreated, List.countP_cons, Event.isNet,
          Event.isSpawnAttempt, Event.isSpawnCreated]
  | convert t v f o vb env =>
      obtain h | ⟨u0, h⟩ | ⟨u0, b0, h⟩ := convert_trace_shape t v f o vb env <;>
        simp [exec, Output.trace, h, netCount, spawnAttempts, spawnCreated,
          List.countP_cons, Event.isNet, Event.isSpawnAttempt,
          Event.isSpawnCreated]
  | openFile p spawn path =>
      cases p with
      | windows =>
          cases h : spawn "cmd" ["/C", "start", "", path] <;>
            simp [exec, open_file_path, Output.trace, h, netCount,
              spawnAttempts, spawnCreated, List.countP_cons, Event.isNet,
              Event.isSpawnAttempt, Event.isSpawnCreated]
      | macos =>
          cases h : spawn "open" [path] <;>
            simp [exec, open_file_path, Output.trace, h, netCount,
              spawnAttempts, spawnCreated, List.countP_cons, Event.isNet,
              Event.isSpawnAttempt, Event.isSpawnCreated]
      | linux =>
          cases h : spawn "xdg-open" [path] <;>
            simp [exec, open_file_path, Output.trace, h, netCount,
              spawnAttempts, spawnCreated, List.countP_cons, Event.isNet,
              Event.isSpawnAttempt, Event.isSpawnCreated]
  | openFolder p spawn fs path =>
      cases hex : fs.pathExists with
      | false =>
          simp [exec, open_folder_path, hex, Output.trace, netCount,
            spawnAttempts, spawnCreated]
      | true =>
        cases hf : fs.isFile with
        | false =>
          cases p with
          | windows =>
              cases h : spawn "explorer" [path] <;>
                simp [exec, open_folder_path, hex, hf, Output.trace, h,
                  netCount, spawnAttempts, spawnCreated, List.countP_cons,
                  Event.isNet, Event.isSpawnAttempt, Event.isSpawnCreated]
          | macos =>
              cases h : spawn "open" [path] <;>
                simp [exec, open_folder_path, hex, hf, Output.trace, h,
                  netCount, spawnAttempts, spawnCreated, List.countP_cons,
                  Event.isNet, Event.isSpawnAttempt, Event.isSpawnCreated]
          | linux =>
              cases h : spawn "xdg-open" [path] <;>
                simp [exec, open_folder_path, hex, hf, tryFileManagers,
                  Output.trace, h, netCount, spawnAttempts, spawnCreated,
                  List.countP_cons, Event.isNet, Event.isSpawnAttempt,
                  Event.isSpawnCreated]
        | true =>
          cases hpar : fs.parent with
          | none =>
              simp [exec, open_folder_path, hex, hf, hpar, Output.trace,
                netCount, spawnAttempts, spawnCreated]
          | some pr =>
            cases p with
            | windows =>
                cases h : spawn "explorer" ["/select,", path] <;>
                  simp [exec, open_folder_path, hex, hf, hpar, Output.trace, h,
                    netCount, spawnAttempts, spawnCreated, List.countP_cons,
                    Event.isNet, Event.isSpawnAttempt, Event.isSpawnCreated]
            | macos =>
                cases h : spawn "open" ["-R", path] <;>
                  simp [exec, open_folder_path, hex, hf, hpar, Output.trace, h,
                    netCount, spawnAttempts, spawnCreated, List.countP_cons,
                    Event.isNet, Event.isSpawnAttempt, Event.isSpawnCreated]
            | linux =>
                have hnet := tryFileManagers_net spawn path
                  ["nautilus", "dolphin", "thunar", "pcmanfm"]
                have hatt := tryFileManagers_attempts spawn path
                  ["nautilus", "dolphin", "thunar", "pcmanfm"]
                have hcr := tryFileManagers_created spawn path
                  ["nautilus", "dolphin", "thunar", "pcmanfm"]
                have hcf := tryFileManagers_created_of_failed spawn path
                  ["nautilus", "dolphin", "thunar", "pcmanfm"]
                simp only [List.length_cons, List.length_nil] at hatt
                simp only [netCount, spawnAttempts, spawnCreated]
                  at hnet hatt hcr hcf
                cases hsucc : (tryFileManagers spawn path
                    ["nautilus", "dolphin", "thunar", "pcmanfm"]).1 with
                | true =>
                    have htr : (exec (Invocation.openFolder Platform.linux
                        spawn fs path)).trace =
                        (tryFileManagers spawn path
                          ["nautilus", "dolphin", "thunar", "pcmanfm"]).2 := by
                      simp [exec, open_folder_path, hex, hf, hpar, hsucc,
                        Output.trace]
                    rw [htr]
                    simp only [netCount, spawnAttempts, spawnCreated]
                    exact ⟨by omega, by omega, by omega, fun _ => by omega⟩
                | false =>
                    have hz := hcf hsucc
                    cases h : spawn "xdg-open" [pr] with
                    | ok out =>
                        have htr : (exec (Invocation.openFolder Platform.linux
                            spawn fs path)).trace =
                            (tryFileManagers spawn path
                              ["nautilus", "dolphin", "thunar", "pcmanfm"]).2 ++
                            [.spawn "xdg-open" [pr] true] := by
                          simp [exec, open_folder_path, hex, hf, hpar, hsucc,
                            h, Output.trace]
                        rw [htr]
                        simp only [netCount, spawnAttempts, spawnCreated,
                          List.countP_append, List.countP_cons,
                          List.countP_nil, Event.isNet, Event.isSpawnAttempt,
                          Event.isSpawnCreated, eq_self_iff_true, if_true,
                          Bool.false_eq_true, if_false, Nat.add_zero,
                          Nat.zero_add]
                        refine ⟨by omega, by omega, by omega,
                          fun _ => by omega⟩
                    | error e =>
                        have htr : (exec (Invocation.openFolder Platform.linux
                            spawn fs path)).trace =
                            (tryFileManagers spawn path
                              ["nautilus", "dolphin", "thunar", "pcmanfm"]).2 ++
                            [.spawn "xdg-open" [pr] false] := by
                          simp [exec, open_folder_path, hex, hf, hpar, hsucc,
                            h, Output.trace]
                        rw [htr]
                        simp only [netCount, spawnAttempts, spawnCreated,
                          List.countP_append, List.countP_cons,
                          List.countP_nil, Event.isNet, Event.isSpawnAttempt,
                          Event.isSpawnCreated, eq_self_iff_true, if_true,
                          Bool.false_eq_true, if_false, Nat.add_zero,
                          Nat.zero_add]
                        refine ⟨by omega, by omega, by omega,
                          fun _ => by omega⟩
  | selectFolder p spawn home =>
      cases p with
      | windows =>
          cases h : spawn "powershell" ["-Command", powershellScript] <;>
            simp [exec, select_output_folder, Output.trace, h, netCount,
              spawnAttempts, spawnCreated, List.countP_cons, Event.isNet,
              Event.isSpawnAttempt, Event.isSpawnCreated]
      | macos =>
          cases h : spawn "osascript" ["-e", applescriptExpr] with
          | ok out =>
              cases hs : out.status_success <;>
                simp [exec, select_output_folder, Output.trace, h, hs,
                  netCount, spawnAttempts, spawnCreated, List.countP_cons,
                  Event.isNet, Event.isSpawnAttempt, Event.isSpawnCreated]
          | error e =>
              simp [exec, select_output_folder, Output.trace, h, netCount,
                spawnAttempts, spawnCreated, List.countP_cons, Event.isNet,
                Event.isSpawnAttempt, Event.isSpawnCreated]
      | linux =>
          have hnet := tryFolderDialogs_net spawn linuxDialogCommands
          have hatt := tryFolderDialogs_attempts spawn linuxDialogCommands
          have hcr := tryFolderDialogs_created spawn linuxDialogCommands
          have hlen : linuxDialogCommands.length = 3 := rfl
          simp only [netCount, spawnAttempts, spawnCreated] at hnet hatt hcr
          have htr : (exec (Invocation.selectFolder Platform.linux spawn
              home)).trace = (tryFolderDialogs spawn linuxDialogCommands).2 := by
            rcases hd : tryFolderDialogs spawn linuxDialogCommands with ⟨r1, evs⟩
            cases r1 with
            | some pathr => simp [exec, select_output_folder, hd, Output.trace]
            | none =>
                cases home with
                | some hh => simp [exec, select_output_folder, hd, Output.trace]
                | none => simp [exec, select_output_folder, hd, Output.trace]
          rw [htr]
          simp only [netCount, spawnAttempts, spawnCreated]
          refine ⟨by omega, by omega, by omega, fun hni => ?_⟩
      -- the hypothesis excludes exactly this invocation
          exact absurd rfl (hni Platform.linux spawn home)

/-- C3 witness: a non-`select_output_folder` invocation stays within one
created process. -/
theorem C3_call_bounds_witness :
    spawnCreated (exec (Invocation.openFile Platform.linux
        (spawnAllOk ⟨true, ""⟩) "a.mp3")).trace ≤ 1 :=
  (C3_call_bounds
      (Invocation.openFile Platform.linux (spawnAllOk ⟨true, ""⟩) "a.mp3")).2.2.2
    (fun _ _ _ h => by cases h)

/-! ### C5 -/

/-- C5 counterexample: `open_file_path` returns `Ok(())` whether the spawned
executable exits successfully with one output or fails with another — the
executable's output and exit status are not returned to the caller. -/
theorem C5_counterexample :
    (open_file_path Platform.macos (spawnAllOk ⟨true, "opened"⟩)
        "clip.mp3").1 = .ok () ∧
    (open_file_path Platform.macos (spawnAllOk ⟨false, "failure text"⟩)
        "clip.mp3").1 = .ok () ∧
    (⟨true, "opened"⟩ : ProcOutput) ≠ ⟨false, "failure text"⟩ :=
  ⟨rfl, rfl, by decide⟩

/-- C5 (amended): `open_file_path` and `open_folder_path` discard the
spawned executable's output and exit status: over every spawn environment,
they return `Ok(())` exactly when some spawn attempt created a process
(for `open_folder_path`, provided the path checks pass), and otherwise an
error string carrying only the spawn failure; only `select_output_folder`
derives its return value from the executable's stdout and exit status. -/
theorem C5_spawn_results (platform : Platform) (spawn : SpawnEnv)
    (path : String) (fs : FsInfo) (out : ProcOutput) :
    ((open_file_path platform spawn path).1 = .ok () ↔
      ∃ c a, Event.spawn c a true ∈ (open_file_path platform spawn path).2) ∧
    ((open_file_path platform spawn path).1 = .ok () ∨
      ∃ e, (open_file_path platform spawn path).1 =
        .error ("Failed to open file: " ++ e)) ∧
    (fs.pathExists = true → (fs.isFile = true → fs.parent.isSome = true) →
      (((open_folder_path platform spawn fs path).1 = .ok () ↔
        ∃ c a, Event.spawn c a true ∈
          (open_folder_path platform spawn fs path).2) ∧
       ((open_folder_path platform spawn fs path).1 = .ok () ∨
        ∃ e, (open_folder_path platform spawn fs path).1 =
          .error ("Failed to open folder: " ++ e)))) ∧
    ((select_output_folder Platform.macos (spawnAllOk out) none).1 =
      .ok (if out.status_success then
            some ((out.stdout.trim.replace ":" "/").replace "Macintosh HD" "")
          else none)) := by
  refine ⟨?_, ?_, ?_, ?_⟩
  · cases platform with
    | windows =>
        cases h : spawn "cmd" ["/C", "start", "", path] <;>
          simp [open_file_path, h]
    | macos =>
        cases h : spawn "open" [path] <;> simp [open_file_path, h]
    | linux =>
        cases h : spawn "xdg-open" [path] <;> simp [open_file_path, h]
  · cases platform with
    | windows =>
        cases h : spawn "cmd" ["/C", "start", "", path] <;>
          simp [open_file_path, h]
    | macos =>
        cases h : spawn "open" [path] <;> simp [open_file_path, h]
    | linux =>
        cases h : spawn "xdg-open" [path] <;> simp [open_file_path, h]
  · intro hex hpar
    cases hf : fs.isFile with
    | false =>
        cases platform with
        | windows =>
            cases h : spawn "explorer" [path] <;>
              simp [open_folder_path, hex, hf, h]
        | macos =>
            cases h : spawn "open" [path] <;>
              simp [open_folder_path, hex, hf, h]
        | linux =>
            cases h : spawn "xdg-open" [path] <;>
              simp [open_folder_path, hex, hf, h, tryFileManagers]
    | true =>
        obtain ⟨pr, hpr⟩ := Option.isSome_iff_exists.mp (hpar hf)
        cases platform with
        | windows =>
            cases h : spawn "explorer" ["/select,", path] <;>
              simp [open_folder_path, hex, hf, hpr, h]
        | macos =>
            cases h : spawn "open" ["-R", path] <;>
              simp [open_folder_path, hex, hf, hpr, h]
        | linux =>
            cases hsucc : (tryFileManagers spawn path
                ["nautilus", "dolphin", "thunar", "pcmanfm"]).1 with
            | true =>
                have hmem := tryFileManagers_success_mem spawn path
                  ["nautilus", "dolphin", "thunar", "pcmanfm"] hsucc
                refine ⟨⟨fun _ => ?_, fun _ => ?_⟩, Or.inl ?_⟩
                · simpa [open_folder_path, hex, hf, hpr, hsucc] using hmem
                · simp [open_folder_path, hex, hf, hpr, hsucc]
                · simp [open_folder_path, hex, hf, hpr, hsucc]
            | false =>
                have hnm := tryFileManagers_failed_not_mem spawn path
                  ["nautilus", "dolphin", "thunar", "pcmanfm"] hsucc
                cases h : spawn "xdg-open" [pr] with
                | ok o2 =>
                    refine ⟨⟨fun _ => ?_, fun _ => ?_⟩, Or.inl ?_⟩
                    · refine ⟨"xdg-open", [pr], ?_⟩
                      simp [open_folder_path, hex, hf, hpr, hsucc, h]
                    · simp [open_folder_path, hex, hf, hpr, hsucc, h]
                    · simp [open_folder_path, hex, hf, hpr, hsucc, h]
                | error e2 =>
                    refine ⟨⟨fun habs => absurd habs ?_, fun hcr => ?_⟩,
                      Or.inr ⟨e2, ?_⟩⟩
                    · simp [open_folder_path, hex, hf, hpr, hsucc, h]
                    · exfalso
                      obtain ⟨c, a, hm⟩ := hcr
                      have hm2 : Event.spawn c a true ∈ (tryFileManagers spawn
                          path ["nautilus", "dolphin", "thunar", "pcmanfm"]).2 := by
                        simpa [open_folder_path, hex, hf, hpr, hsucc, h]
                          using hm
                      exact hnm c a hm2
                    · simp [open_folder_path, hex, hf, hpr, hsucc, h]
  · cases hs : out.status_success <;>
      simp [select_output_folder, spawnAllOk, hs]

/-- C5 witness: revealing an existing file whose opener process starts but
exits with a failure status is still reported as `Ok(())`. -/
theorem C5_spawn_results_witness :
    (open_folder_path Platform.macos (spawnAllOk ⟨false, "ignored"⟩)
        ⟨true, true, some "folder"⟩ "folder/clip.mp3").1 = .ok () :=
  (((C5_spawn_results Platform.macos (spawnAllOk ⟨false, "ignored"⟩)
        "folder/clip.mp3" ⟨true, true, some "folder"⟩
        ⟨false, "ignored"⟩).2.2.1 rfl (fun _ => rfl)).1).mpr
    ⟨"open", ["-R", "folder/clip.mp3"],
      by simp [open_folder_path, spawnAllOk]⟩

end KIWI
